import Mathlib

/-!
Verification of `examples/vlanhost.py`: the `VLANHost.config` retagging
procedure and the `VLANStarTopo.build` topology generator, embedded shallowly.

Shell commands are modelled as the list of command strings issued via
`self.cmd(...)` by the retagging code; host state is the interface store,
the default-interface port, and the name-to-interface table.
-/

/-- A virtual network interface as seen by its owning host: a mutable name
(renamed in place by the retagger) and the IP/prefix currently assigned. -/
structure Intf where
  name : String
  ipAddr : Option String
deriving DecidableEq, Repr

/-- An emulated host: a store of interfaces (indexed by position, standing in
for Python object identity), the index of the default interface, and the
name-to-interface table mapping interface names to store indices. -/
structure Host where
  intfs : List Intf
  defaultPort : Nat
  nameToIntf : List (String × Nat)
deriving DecidableEq, Repr

/-- The parameters passed to a host configuration call; only the `vlan` and
`ip` entries are consulted by the code under study. -/
structure Params where
  vlan : Option Int
  ip : Option String
deriving DecidableEq, Repr

/-- The result value returned by the delegated generic configuration step. -/
structure BaseResult where
  appliedIp : Option String
deriving DecidableEq, Repr

/-- Modelled from the spec: the external framework creates a host with a
default interface already registered in the host's interface-name table
("a mapping from interface name to interface handle"). -/
def Host.init (I : String) : Host :=
  { intfs := [{ name := I, ipAddr := none }], defaultPort := 0, nameToIntf := [(I, 0)] }

/-- The default-interface accessor (`defaultIntf` of the Host base capability). -/
def Host.defaultIntf (h : Host) : Option Intf :=
  h.intfs.get? h.defaultPort

/-- Python dict assignment `m[k] = v`: overwrite in place when the key exists,
otherwise append (insertion order preserved). -/
def dictSet (m : List (String × Nat)) (k : String) (v : Nat) : List (String × Nat) :=
  if m.any (fun e => e.1 == k) then
    m.map (fun e => if e.1 == k then (k, v) else e)
  else
    m ++ [(k, v)]

/-- Python dict lookup `m[k]` (as an option). -/
def dictGet (m : List (String × Nat)) (k : String) : Option Nat :=
  (m.find? (fun e => e.1 == k)).map (fun e => e.2)

/-- Modelled from the spec: the delegated generic configuration step of the
Host base capability ("a generic configure(parameters) operation returning a
result value"), which assigns the given IP/prefix to the default interface
when an `ip` parameter is present. -/
def Host.baseConfig (h : Host) (p : Params) : BaseResult × Host :=
  match p.ip with
  | none => ({ appliedIp := none }, h)
  | some a =>
    match h.intfs.get? h.defaultPort with
    | none => ({ appliedIp := some a }, h)
    | some intf =>
      ({ appliedIp := some a },
       { h with intfs := h.intfs.set h.defaultPort { intf with ipAddr := some a } })

/-- `VLANHost.config` from `examples/vlanhost.py`: pop the `vlan` parameter
(fatal assertion when absent), delegate to the generic configuration step,
read the default interface and the `ip` parameter (unhandled `KeyError` when
absent), issue the four retagging shell commands, rename the default
interface in place, register the new name in `nameToIntf`, and return the
delegated step's result unchanged.  The returned triple is (result or
raised error, host state at return or at the point the error was raised,
shell commands issued by this procedure). -/
def VLANHost.config (h : Host) (params : Params) :
    Except String BaseResult × Host × List String :=
  match params.vlan with
  | none => (Except.error "VLANHost without vlan in instantiation", h, [])
  | some vlan =>
    let rh := Host.baseConfig h { params with vlan := none }
    let r := rh.1
    let h1 := rh.2
    match h1.intfs.get? h1.defaultPort with
    | none => (Except.error "AttributeError: no default interface", h1, [])
    | some intf =>
      match params.ip with
      | none => (Except.error "KeyError: ip", h1, [])
      | some ipInfo =>
        let newIntf := intf.name ++ "." ++ toString vlan
        let c1 := "ip address del " ++ ipInfo ++ " dev " ++ intf.name
        let c2 := "ip link add link " ++ intf.name ++ " name " ++ newIntf
                    ++ " type vlan id " ++ toString vlan
        let c3 := "ip address add " ++ ipInfo ++ " dev " ++ newIntf
        let c4 := "ip link set up dev " ++ newIntf
        let h2 := { h1 with intfs := h1.intfs.set h1.defaultPort { intf with name := newIntf } }
        let h3 := { h2 with nameToIntf := dictSet h2.nameToIntf newIntf h1.defaultPort }
        (Except.ok r, h3, [c1, c2, c3, c4])

/-- A host descriptor in a topology: its name and the optional `vlan`
parameter it was created with. -/
structure HostSpec where
  name : String
  vlanTag : Option Int
deriving DecidableEq, Repr

/-- A topology descriptor: switches, hosts, and links (host name, switch name). -/
structure Topo where
  switches : List String
  hosts : List HostSpec
  links : List (String × String)
deriving DecidableEq, Repr

/-- One VLAN group of `VLANStarTopo.build`: hosts `h{j+1}-{vlan}` for
`j in range(n)`, each carrying the VLAN tag. -/
def taggedGroup (n : Nat) (vlan : Int) : List HostSpec :=
  (List.range n).map (fun j =>
    { name := "h" ++ toString (j + 1) ++ "-" ++ toString vlan, vlanTag := some vlan })

/-- All VLAN groups of `VLANStarTopo.build`: group `i in range(k)` uses
VLAN id `vlanBase + i`. -/
def taggedHosts (k n : Nat) (vlanBase : Int) : List HostSpec :=
  (List.range k).flatMap (fun i => taggedGroup n (vlanBase + i))

/-- The untagged hosts of `VLANStarTopo.build`: `h{j+1}` for `j in range(n)`. -/
def untaggedHosts (n : Nat) : List HostSpec :=
  (List.range n).map (fun j => { name := "h" ++ toString (j + 1), vlanTag := none })

/-- `VLANStarTopo.build` from `examples/vlanhost.py`: one switch `s1`, `k`
VLAN groups of `n` hosts each, then `n` untagged hosts, every host linked to
`s1` in creation order.  Python `range` over a negative bound is empty, hence
the `Int.toNat` coercions. -/
def VLANStarTopo.build (k n vlanBase : Int) : Topo :=
  let hs := taggedHosts k.toNat n.toNat vlanBase ++ untaggedHosts n.toNat
  { switches := ["s1"], hosts := hs, links := hs.map (fun h => (h.name, "s1")) }

/-! ## Helper lemmas about the retagging procedure -/

lemma String.length_append_dot (I s : String) : (I ++ "." ++ s).length = I.length + 1 + s.length := by
  have hdot : (".").length = 1 := rfl
  rw [String.length_append, String.length_append, hdot]

lemma ne_append_dot (I s : String) : I ≠ I ++ "." ++ s := by
  intro h
  have hl := congrArg String.length h
  rw [String.length_append_dot] at hl
  omega

lemma beq_append_dot_eq_false (I s : String) : (I == I ++ "." ++ s) = false :=
  beq_eq_false_iff_ne.mpr (ne_append_dot I s)

/-- Full description of a `VLANHost.config` run on a host with a single
interface at port 0, with both `vlan` and `ip` parameters present. -/
lemma config_single_intf (Nm : String) (ip0 : Option String)
    (tbl : List (String × Nat)) (V : Int) (P : String) :
    VLANHost.config
        { intfs := [{ name := Nm, ipAddr := ip0 }], defaultPort := 0, nameToIntf := tbl }
        { vlan := some V, ip := some P } =
      (Except.ok { appliedIp := some P },
       { intfs := [{ name := Nm ++ "." ++ toString V, ipAddr := some P }],
         defaultPort := 0,
         nameToIntf := dictSet tbl (Nm ++ "." ++ toString V) 0 },
       ["ip address del " ++ P ++ " dev " ++ Nm,
        "ip link add link " ++ Nm ++ " name " ++ (Nm ++ "." ++ toString V)
          ++ " type vlan id " ++ toString V,
        "ip address add " ++ P ++ " dev " ++ (Nm ++ "." ++ toString V),
        "ip link set up dev " ++ (Nm ++ "." ++ toString V)]) := by
  simp [VLANHost.config, Host.baseConfig, List.get?]

/-- Full description of a `VLANHost.config` run on a freshly created host. -/
lemma config_init_eq (I : String) (V : Int) (P : String) :
    VLANHost.config (Host.init I) { vlan := some V, ip := some P } =
      (Except.ok { appliedIp := some P },
       { intfs := [{ name := I ++ "." ++ toString V, ipAddr := some P }],
         defaultPort := 0,
         nameToIntf := [(I, 0), (I ++ "." ++ toString V, 0)] },
       ["ip address del " ++ P ++ " dev " ++ I,
        "ip link add link " ++ I ++ " name " ++ (I ++ "." ++ toString V)
          ++ " type vlan id " ++ toString V,
        "ip address add " ++ P ++ " dev " ++ (I ++ "." ++ toString V),
        "ip link set up dev " ++ (I ++ "." ++ toString V)]) := by
  rw [Host.init, config_single_intf]
  simp [dictSet, beq_append_dot_eq_false]

/-! ## Claim theorems: the Interface Retagger -/

/-- C1: after `VLANHost.config` with VLAN id V and IP/prefix P on a host whose
default interface is named I, `defaultIntf` returns an interface named `I.V`,
an `ip link set up` command has been issued for `I.V`, and `nameToIntf`
contains an entry keyed `I.V` mapping to that (default) interface. -/
theorem vlanhost_config_retags_default_interface (I : String) (V : Int) (P : String) :
    ((VLANHost.config (Host.init I) { vlan := some V, ip := some P }).2.1.defaultIntf).map Intf.name
        = some (I ++ "." ++ toString V) ∧
    ("ip link set up dev " ++ (I ++ "." ++ toString V)) ∈
        (VLANHost.config (Host.init I) { vlan := some V, ip := some P }).2.2 ∧
    dictGet (VLANHost.config (Host.init I) { vlan := some V, ip := some P }).2.1.nameToIntf
        (I ++ "." ++ toString V)
      = some (VLANHost.config (Host.init I) { vlan := some V, ip := some P }).2.1.defaultPort := by
  rw [config_init_eq]
  refine ⟨rfl, by simp, ?_⟩
  simp [dictGet, beq_append_dot_eq_false]

/-- C2: a `VLANHost.config` call with a vlan parameter (and the contractually
required `ip` parameter) issues exactly these four shell commands, in this
order, with no success checking (the trace is the complete list issued). -/
theorem vlanhost_config_issues_exactly_four_commands (I : String) (V : Int) (P : String) :
    (VLANHost.config (Host.init I) { vlan := some V, ip := some P }).2.2 =
      ["ip address del " ++ P ++ " dev " ++ I,
       "ip link add link " ++ I ++ " name " ++ (I ++ "." ++ toString V)
         ++ " type vlan id " ++ toString V,
       "ip address add " ++ P ++ " dev " ++ (I ++ "." ++ toString V),
       "ip link set up dev " ++ (I ++ "." ++ toString V)] := by
  rw [config_init_eq]

/-- C3: when the parameters carry no VLAN id, `VLANHost.config` fails with the
fatal assertion before issuing any shell command and before the delegated
generic configuration step: the trace is empty and the host is unchanged. -/
theorem vlanhost_config_missing_vlan_aborts (h : Host) (p : Params) (hv : p.vlan = none) :
    VLANHost.config h p = (Except.error "VLANHost without vlan in instantiation", h, []) := by
  rw [VLANHost.config, hv]

theorem vlanhost_config_missing_vlan_aborts_witness :
    (({ vlan := none, ip := some "10.0.0.1/8" } : Params)).vlan = none ∧
    VLANHost.config (Host.init "eth0") { vlan := none, ip := some "10.0.0.1/8" } =
      (Except.error "VLANHost without vlan in instantiation", Host.init "eth0", []) :=
  ⟨rfl, vlanhost_config_missing_vlan_aborts (Host.init "eth0") _ rfl⟩

/-- C8: whenever `VLANHost.config` succeeds, its returned value is exactly the
result of the delegated generic configuration step (called with the `vlan`
entry popped), unchanged. -/
theorem vlanhost_config_returns_base_result (h : Host) (p : Params) (r : BaseResult)
    (hok : (VLANHost.config h p).1 = Except.ok r) :
    r = (Host.baseConfig h { p with vlan := none }).1 := by
  obtain ⟨pv, pip⟩ := p
  rcases pv with _ | vlan
  · exact absurd hok (by simp [VLANHost.config])
  · rcases pip with _ | ipInfo
    · rcases hg : ((Host.baseConfig h { vlan := none, ip := none }).2.intfs[
          (Host.baseConfig h { vlan := none, ip := none }).2.defaultPort]?) with _ | intf
      · exact absurd hok (by simp [VLANHost.config, List.get?_eq_getElem?, hg])
      · exact absurd hok (by simp [VLANHost.config, List.get?_eq_getElem?, hg])
    · rcases hg : ((Host.baseConfig h { vlan := none, ip := some ipInfo }).2.intfs[
          (Host.baseConfig h { vlan := none, ip := some ipInfo }).2.defaultPort]?) with _ | intf
      · exact absurd hok (by simp [VLANHost.config, List.get?_eq_getElem?, hg])
      · simp only [VLANHost.config, List.get?_eq_getElem?, hg] at hok
        exact (Except.ok.inj hok).symm

theorem vlanhost_config_returns_base_result_witness :
    ({ appliedIp := some "10.0.0.1/8" } : BaseResult) =
      (Host.baseConfig (Host.init "eth0") { vlan := none, ip := some "10.0.0.1/8" }).1 :=
  vlanhost_config_returns_base_result (Host.init "eth0")
    { vlan := some 100, ip := some "10.0.0.1/8" } _ (by rfl)

/-- C9: retagging does not remove the old name from `nameToIntf`: afterwards
both the old name I and the new name `I.V` are keys, and both map to the same
interface handle (port 0), the one renamed in place to `I.V`. -/
theorem vlanhost_config_keeps_old_name_entry (I : String) (V : Int) (P : String) :
    (VLANHost.config (Host.init I) { vlan := some V, ip := some P }).2.1.nameToIntf =
      [(I, 0), (I ++ "." ++ toString V, 0)] ∧
    dictGet (VLANHost.config (Host.init I) { vlan := some V, ip := some P }).2.1.nameToIntf I
      = some 0 ∧
    dictGet (VLANHost.config (Host.init I) { vlan := some V, ip := some P }).2.1.nameToIntf
        (I ++ "." ++ toString V) = some 0 ∧
    (VLANHost.config (Host.init I) { vlan := some V, ip := some P }).2.1.intfs.get? 0 =
      some { name := I ++ "." ++ toString V, ipAddr := some P } := by
  rw [config_init_eq]
  refine ⟨rfl, by simp [dictGet], ?_, rfl⟩
  simp [dictGet, beq_append_dot_eq_false]

/-- C5 counterexample: running `VLANHost.config` twice on the same host with
vlan 100 does not re-issue the first create command `ip link add link eth0
name eth0.100 type vlan id 100` (as the claim states); since the default
interface was renamed in place to `eth0.100`, the second run creates
`eth0.100.100` instead. -/
theorem vlanhost_config_twice_counterexample :
    (VLANHost.config
        (VLANHost.config (Host.init "eth0") { vlan := some 100, ip := some "10.0.0.1/8" }).2.1
        { vlan := some 100, ip := some "10.0.0.1/8" }).2.2 =
      ["ip address del 10.0.0.1/8 dev eth0.100",
       "ip link add link eth0.100 name eth0.100.100 type vlan id 100",
       "ip address add 10.0.0.1/8 dev eth0.100.100",
       "ip link set up dev eth0.100.100"] ∧
    "ip link add link eth0 name eth0.100 type vlan id 100" ∉
      (VLANHost.config
        (VLANHost.config (Host.init "eth0") { vlan := some 100, ip := some "10.0.0.1/8" }).2.1
        { vlan := some 100, ip := some "10.0.0.1/8" }).2.2 := by
  decide

/-- C5 (amended): `VLANHost.config` is not idempotent, but not by duplicate
creation: because the first run renames the default interface in place to
`I.V`, a second run with the same VLAN id issues
`ip link add link I.V name I.V.V type vlan id V`, a create command for the
stacked name `I.V.V` that differs from the first run's create command. -/
theorem vlanhost_config_not_idempotent (I : String) (V : Int) (P : String) :
    (VLANHost.config
        (VLANHost.config (Host.init I) { vlan := some V, ip := some P }).2.1
        { vlan := some V, ip := some P }).2.2.get? 1 =
      some ("ip link add link " ++ (I ++ "." ++ toString V) ++ " name "
             ++ (I ++ "." ++ toString V ++ "." ++ toString V) ++ " type vlan id " ++ toString V) ∧
    (VLANHost.config
        (VLANHost.config (Host.init I) { vlan := some V, ip := some P }).2.1
        { vlan := some V, ip := some P }).2.2.get? 1 ≠
      (VLANHost.config (Host.init I) { vlan := some V, ip := some P }).2.2.get? 1 := by
  rw [config_init_eq, config_single_intf]
  refine ⟨rfl, ?_⟩
  intro heq
  have h1 := Option.some.inj heq
  have h2 := congrArg String.length h1
  simp only [String.length_append] at h2
  have hdot : (".").length = 1 := rfl
  rw [hdot] at h2
  omega

/-- C10: with a vlan parameter but no `ip` entry, `VLANHost.config` raises an
unhandled KeyError after the delegated generic step has run but before any
retagging shell command: the trace is empty, and the host (interface name and
`nameToIntf` table) is unchanged. -/
theorem vlanhost_config_missing_ip_raises (I : String) (V : Int) :
    VLANHost.config (Host.init I) { vlan := some V, ip := none } =
      (Except.error "KeyError: ip",
       (Host.baseConfig (Host.init I) { vlan := none, ip := none }).2, []) ∧
    (Host.baseConfig (Host.init I) { vlan := none, ip := none }).2 = Host.init I :=
  ⟨rfl, rfl⟩

/-! ## Helper lemmas about the topology generator -/

lemma taggedGroup_length (n : Nat) (v : Int) : (taggedGroup n v).length = n := by
  simp [taggedGroup]

lemma untaggedHosts_length (n : Nat) : (untaggedHosts n).length = n := by
  simp [untaggedHosts]

lemma taggedHosts_succ (k n : Nat) (b : Int) :
    taggedHosts (k + 1) n b = taggedHosts k n b ++ taggedGroup n (b + k) := by
  simp [taggedHosts, List.range_succ]

lemma taggedHosts_length (k n : Nat) (b : Int) : (taggedHosts k n b).length = k * n := by
  induction k with
  | zero => simp [taggedHosts]
  | succ k ih =>
    rw [taggedHosts_succ, List.length_append, ih, taggedGroup_length]
    ring

lemma filter_const_length {α : Type} (p : α → Bool) (l : List α) (c : Bool)
    (hc : ∀ a ∈ l, p a = c) : (l.filter p).length = if c then l.length else 0 := by
  induction l with
  | nil => cases c <;> simp
  | cons x xs ih =>
    have hx := hc x (List.mem_cons_self x xs)
    have hxs : ∀ a ∈ xs, p a = c := fun a ha => hc a (List.mem_cons_of_mem _ ha)
    cases c <;> simp [List.filter_cons, hx, ih hxs]

lemma taggedGroup_mem_tag (n : Nat) (v : Int) :
    ∀ h ∈ taggedGroup n v, h.vlanTag = some v := by
  intro h hh
  simp only [taggedGroup, List.mem_map, List.mem_range] at hh
  obtain ⟨j, _, rfl⟩ := hh
  rfl

lemma taggedGroup_filter_tag (n : Nat) (v w : Int) :
    ((taggedGroup n v).filter (fun h => h.vlanTag == some w)).length
      = if v = w then n else 0 := by
  have hc : ∀ h ∈ taggedGroup n v, (h.vlanTag == some w) = (decide (v = w)) := by
    intro h hh
    rw [taggedGroup_mem_tag n v h hh]
    by_cases hvw : v = w <;> simp [hvw]
  rw [filter_const_length _ _ _ hc, taggedGroup_length]
  by_cases hvw : v = w <;> simp [hvw]

lemma untaggedHosts_mem_tag (n : Nat) :
    ∀ h ∈ untaggedHosts n, h.vlanTag = none := by
  intro h hh
  simp only [untaggedHosts, List.mem_map, List.mem_range] at hh
  obtain ⟨j, _, rfl⟩ := hh
  rfl

lemma untaggedHosts_filter_tag (n : Nat) (w : Int) :
    ((untaggedHosts n).filter (fun h => h.vlanTag == some w)).length = 0 := by
  have hc : ∀ h ∈ untaggedHosts n, (h.vlanTag == some w) = false := by
    intro h hh
    rw [untaggedHosts_mem_tag n h hh]
    rfl
  rw [filter_const_length _ _ _ hc]
  simp

lemma taggedHosts_filter_tag (k n : Nat) (b : Int) (i : Nat) :
    ((taggedHosts k n b).filter (fun h => h.vlanTag == some (b + i))).length
      = if i < k then n else 0 := by
  induction k with
  | zero => simp [taggedHosts]
  | succ k ih =>
    rw [taggedHosts_succ, List.filter_append, List.length_append, ih, taggedGroup_filter_tag]
    split_ifs <;> omega

lemma taggedHosts_filter_isSome (k n : Nat) (b : Int) :
    ((taggedHosts k n b).filter (fun h => h.vlanTag.isSome)).length = k * n := by
  have hc : ∀ h ∈ taggedHosts k n b, h.vlanTag.isSome = true := by
    intro h hh
    simp only [taggedHosts, List.mem_flatMap, List.mem_range] at hh
    obtain ⟨i, _, hmem⟩ := hh
    rw [taggedGroup_mem_tag n _ h hmem]
    rfl
  rw [filter_const_length _ _ _ hc, taggedHosts_length]
  simp

lemma untaggedHosts_filter_isSome (n : Nat) :
    ((untaggedHosts n).filter (fun h => h.vlanTag.isSome)).length = 0 := by
  have hc : ∀ h ∈ untaggedHosts n, h.vlanTag.isSome = false := by
    intro h hh
    rw [untaggedHosts_mem_tag n h hh]
    rfl
  rw [filter_const_length _ _ _ hc]
  simp

lemma taggedHosts_zero_n (k : Nat) (b : Int) : taggedHosts k 0 b = [] := by
  induction k with
  | zero => rfl
  | succ k ih => rw [taggedHosts_succ, ih]; rfl

lemma taggedGroup_getElem (n : Nat) (v : Int) (j : Nat) (hj : j < n) :
    (taggedGroup n v)[j]? =
      some { name := "h" ++ toString (j + 1) ++ "-" ++ toString v, vlanTag := some v } := by
  simp [taggedGroup, List.getElem?_map, List.getElem?_range, hj]

lemma untaggedHosts_getElem (n j : Nat) (hj : j < n) :
    (untaggedHosts n)[j]? = some { name := "h" ++ toString (j + 1), vlanTag := none } := by
  simp [untaggedHosts, List.getElem?_map, List.getElem?_range, hj]

lemma taggedHosts_getElem (k n : Nat) (b : Int) (i j : Nat) (hi : i < k) (hj : j < n) :
    (taggedHosts k n b)[i * n + j]? =
      some { name := "h" ++ toString (j + 1) ++ "-" ++ toString (b + i),
             vlanTag := some (b + i) } := by
  induction k with
  | zero => exact absurd hi (Nat.not_lt_zero i)
  | succ k ih =>
    rw [taggedHosts_succ]
    rcases Nat.lt_or_ge i k with hik | hik
    · rw [List.getElem?_append_left]
      · exact ih hik
      · rw [taggedHosts_length]
        have h1 : i + 1 ≤ k := hik
        have h2 : (i + 1) * n ≤ k * n := Nat.mul_le_mul h1 (Nat.le_refl n)
        have h3 : (i + 1) * n = i * n + n := Nat.succ_mul i n
        omega
    · have hik2 : i = k := by omega
      subst hik2
      rw [List.getElem?_append_right]
      · rw [taggedHosts_length]
        have h4 : i * n + j - i * n = j := by omega
        rw [h4]
        exact taggedGroup_getElem n _ j hj
      · rw [taggedHosts_length]
        omega

/-! ## Claim theorems: the Topology Generator -/

/-- C4: for k, n > 0 and any vlanBase, `VLANStarTopo.build` produces exactly
k*n + n hosts and k*n + n links, every link incident to switch `s1`; exactly
k*n hosts carry a VLAN tag, and for each group index i < k exactly n hosts
carry the tag `vlanBase + i`. -/
theorem vlanstartopo_build_counts (k n vlanBase : Int) (hk : 0 < k) (hn : 0 < n) :
    (VLANStarTopo.build k n vlanBase).hosts.length = (k * n + n).toNat ∧
    (VLANStarTopo.build k n vlanBase).links.length = (k * n + n).toNat ∧
    (∀ l ∈ (VLANStarTopo.build k n vlanBase).links, l.2 = "s1") ∧
    ((VLANStarTopo.build k n vlanBase).hosts.filter (fun h => h.vlanTag.isSome)).length
      = (k * n).toNat ∧
    (∀ i : Int, 0 ≤ i → i < k →
      ((VLANStarTopo.build k n vlanBase).hosts.filter
          (fun h => h.vlanTag == some (vlanBase + i))).length = n.toNat) := by
  obtain ⟨K, hK⟩ : ∃ K : Nat, k = (K : Int) := ⟨k.toNat, (Int.toNat_of_nonneg hk.le).symm⟩
  obtain ⟨N, hN⟩ : ∃ N : Nat, n = (N : Int) := ⟨n.toNat, (Int.toNat_of_nonneg hn.le).symm⟩
  subst hK hN
  have hKN : ((K : Int) * (N : Int) + (N : Int)).toNat = K * N + N := by
    rw [← Nat.cast_mul, ← Nat.cast_add, Int.toNat_natCast]
  have hKN2 : ((K : Int) * (N : Int)).toNat = K * N := by
    rw [← Nat.cast_mul, Int.toNat_natCast]
  refine ⟨?_, ?_, ?_, ?_, ?_⟩
  · simp [VLANStarTopo.build, hKN, taggedHosts_length, untaggedHosts_length]
  · simp [VLANStarTopo.build, hKN, taggedHosts_length, untaggedHosts_length]
  · intro l hl
    simp only [VLANStarTopo.build, List.mem_map] at hl
    obtain ⟨h, _, rfl⟩ := hl
    rfl
  · simp [VLANStarTopo.build, hKN2, List.filter_append,
      taggedHosts_filter_isSome, untaggedHosts_filter_isSome]
  · intro i h0 hik
    obtain ⟨J, hJ⟩ : ∃ J : Nat, i = (J : Int) := ⟨i.toNat, (Int.toNat_of_nonneg h0).symm⟩
    subst hJ
    have hJK : J < K := by exact_mod_cast hik
    simp [VLANStarTopo.build, List.filter_append, taggedHosts_filter_tag,
      untaggedHosts_filter_tag, hJK]

theorem vlanstartopo_build_counts_witness :
    (VLANStarTopo.build 2 2 100).hosts.length = ((2 : Int) * 2 + 2).toNat ∧
    (VLANStarTopo.build 2 2 100).links.length = ((2 : Int) * 2 + 2).toNat ∧
    (∀ l ∈ (VLANStarTopo.build 2 2 100).links, l.2 = "s1") ∧
    ((VLANStarTopo.build 2 2 100).hosts.filter (fun h => h.vlanTag.isSome)).length
      = ((2 : Int) * 2).toNat ∧
    (∀ i : Int, 0 ≤ i → i < 2 →
      ((VLANStarTopo.build 2 2 100).hosts.filter
          (fun h => h.vlanTag == some (100 + i))).length = (2 : Int).toNat) :=
  vlanstartopo_build_counts 2 2 100 (by decide) (by decide)

/-- C6 counterexample: for k = -1, n = 2 (a negative k), `VLANStarTopo.build`
does not produce an empty topology: the two untagged hosts `h1`, `h2` (and
their links) are still created. -/
theorem vlanstartopo_build_negative_counterexample :
    (VLANStarTopo.build (-1) 2 100).hosts =
      [{ name := "h1", vlanTag := none }, { name := "h2", vlanTag := none }] ∧
    ¬((VLANStarTopo.build (-1) 2 100).hosts = [] ∧
      (VLANStarTopo.build (-1) 2 100).links = []) := by
  decide

/-- C6 (amended): `VLANStarTopo.build` performs no input validation; a
negative n silently yields a topology with no hosts and no links (for any k),
while a negative k alone still yields the n untagged hosts. -/
theorem vlanstartopo_build_negative_n_empty (k n vlanBase : Int) (hn : n < 0) :
    (VLANStarTopo.build k n vlanBase).hosts = [] ∧
    (VLANStarTopo.build k n vlanBase).links = [] := by
  have h0 : n.toNat = 0 := Int.toNat_of_nonpos hn.le
  constructor
  · simp [VLANStarTopo.build, h0, taggedHosts_zero_n, untaggedHosts]
  · simp [VLANStarTopo.build, h0, taggedHosts_zero_n, untaggedHosts]

theorem vlanstartopo_build_negative_n_empty_witness :
    (VLANStarTopo.build (-1) (-1) 100).hosts = [] ∧
    (VLANStarTopo.build (-1) (-1) 100).links = [] :=
  vlanstartopo_build_negative_n_empty (-1) (-1) 100 (by decide)

/-- C7: `VLANStarTopo.build` names and orders its elements per the stated
algorithm: the host at position i*n + j is `h{j+1}-{vlanBase+i}` tagged with
`vlanBase + i` (for i < k, j < n), the host at position k*n + j is the
untagged `h{j+1}` (for j < n); concretely, build 2 2 100 yields exactly the
hosts h1-100, h2-100, h1-101, h2-101, h1, h2 with six links to s1. -/
theorem vlanstartopo_build_names_and_order :
    (∀ (k n : Nat) (b : Int) (i j : Nat), i < k → j < n →
      (VLANStarTopo.build (k : Int) (n : Int) b).hosts[i * n + j]? =
        some { name := "h" ++ toString (j + 1) ++ "-" ++ toString (b + i),
               vlanTag := some (b + i) }) ∧
    (∀ (k n : Nat) (b : Int) (j : Nat), j < n →
      (VLANStarTopo.build (k : Int) (n : Int) b).hosts[k * n + j]? =
        some { name := "h" ++ toString (j + 1), vlanTag := none }) ∧
    (VLANStarTopo.build 2 2 100).hosts =
      [{ name := "h1-100", vlanTag := some 100 }, { name := "h2-100", vlanTag := some 100 },
       { name := "h1-101", vlanTag := some 101 }, { name := "h2-101", vlanTag := some 101 },
       { name := "h1", vlanTag := none }, { name := "h2", vlanTag := none }] ∧
    (VLANStarTopo.build 2 2 100).links =
      [("h1-100", "s1"), ("h2-100", "s1"), ("h1-101", "s1"), ("h2-101", "s1"),
       ("h1", "s1"), ("h2", "s1")] := by
  refine ⟨?_, ?_, by decide, by decide⟩
  · intro k n b i j hi hj
    have hidx : i * n + j < (taggedHosts k n b).length := by
      rw [taggedHosts_length]
      have h1 : i + 1 ≤ k := hi
      have h2 : (i + 1) * n ≤ k * n := Nat.mul_le_mul h1 (Nat.le_refl n)
      have h3 : (i + 1) * n = i * n + n := Nat.succ_mul i n
      omega
    simp only [VLANStarTopo.build, Int.toNat_natCast]
    rw [List.getElem?_append_left hidx]
    exact taggedHosts_getElem k n b i j hi hj
  · intro k n b j hj
    simp only [VLANStarTopo.build, Int.toNat_natCast]
    rw [List.getElem?_append_right (by rw [taggedHosts_length]; omega)]
    rw [taggedHosts_length]
    have h4 : k * n + j - k * n = j := by omega
    rw [h4]
    exact untaggedHosts_getElem n j hj

theorem vlanstartopo_build_names_and_order_witness :
    (VLANStarTopo.build (((1 : Nat)) : Int) (((1 : Nat)) : Int) 100).hosts[0 * 1 + 0]? =
      some { name := "h" ++ toString ((0 : Nat) + 1) ++ "-" ++ toString ((100 : Int) + ((0 : Nat) : Int)),
             vlanTag := some ((100 : Int) + ((0 : Nat) : Int)) } :=
  vlanstartopo_build_names_and_order.1 1 1 100 0 0 (by decide) (by decide)
